import Mathlib

/-!
Shallow embedding of the codec and match-model layer of `ggst-api-rs`
(`src/lib.rs`): the `Character` and `Floor` enumerations with their
byte and string codecs, and the `Player`/`Match` aggregate with its
derived `winner`/`loser` accessors.  Rust `u8` values are embedded as
`Nat` (restricted to `< 256` where it matters), `Result<T>` as
`Except Error T`, and `DateTime<Utc>` as `Int` (an opaque timestamp;
none of the verified operations inspects it).
-/

namespace GGST

/-- Modelled from the spec: the `Error` enum is declared in `src/error.rs`,
which is not part of the distributed sources; its two variants used by this
layer appear in `lib.rs` (`Error::InvalidArguments` carrying a formatted
message string, `Error::InvalidCharacterCode` carrying the offending code
string) and in spec §7. -/
inductive Error where
  | InvalidArguments : String → Error
  | InvalidCharacterCode : String → Error
deriving DecidableEq, Repr

/-- Lowercase minimal-digit hexadecimal rendering of a natural number,
embedding Rust's `{:x}` format specifier as used in the error messages of
`Character::from_u8` and `Floor::from_u8` (`Nat.toDigits 16` yields
lowercase digits and no leading zeros, matching `{:x}` on `u8`). -/
def toLowercaseHex (n : Nat) : String :=
  String.mk (Nat.toDigits 16 n)

/-- Enum for characters in the game (`Character` in `lib.rs`). -/
inductive Character where
  | Sol
  | Ky
  | May
  | Axl
  | Chipp
  | Potemkin
  | Faust
  | Millia
  | Zato
  | Ramlethal
  | Leo
  | Nagoriyuki
  | Giovanna
  | Anji
  | Ino
  | Goldlewis
  | Jacko
  | HappyChaos
deriving DecidableEq, Repr, Fintype

/-- Display name of a character, from `impl fmt::Display for Character`. -/
def Character.display : Character → String
  | .Sol => "Sol Badguy"
  | .Ky => "Ky Kiske"
  | .May => "May"
  | .Axl => "Axl Low"
  | .Leo => "Leo Whitefang"
  | .Ino => "I-no"
  | .Zato => "Zato=1"
  | .Anji => "Anji Mito"
  | .Chipp => "Chipp Zanuff"
  | .Faust => "Faust"
  | .Potemkin => "Potemkin"
  | .Millia => "Millia Rage"
  | .Ramlethal => "Ramlethal Valentine"
  | .Giovanna => "Giovanna"
  | .Nagoriyuki => "Nagoriyuki"
  | .Goldlewis => "Goldlewis Dickinson"
  | .Jacko => "Jack-o"
  | .HappyChaos => "Happy Chaos"

/-- Convert a byte into a `Character` (`Character::from_u8` in `lib.rs`).
The argument stands for a `u8`, so callers restrict it to `< 256`. -/
def Character.from_u8 (c : Nat) : Except Error Character :=
  match c with
  | 0x00 => .ok .Sol
  | 0x01 => .ok .Ky
  | 0x02 => .ok .May
  | 0x03 => .ok .Axl
  | 0x04 => .ok .Chipp
  | 0x05 => .ok .Potemkin
  | 0x06 => .ok .Faust
  | 0x07 => .ok .Millia
  | 0x08 => .ok .Zato
  | 0x09 => .ok .Ramlethal
  | 0x0a => .ok .Leo
  | 0x0b => .ok .Nagoriyuki
  | 0x0c => .ok .Giovanna
  | 0x0d => .ok .Anji
  | 0x0e => .ok .Ino
  | 0x0f => .ok .Goldlewis
  | 0x10 => .ok .Jacko
  | 0x11 => .ok .HappyChaos
  | _ => .error (.InvalidArguments (toLowercaseHex c ++ " is not a valid character code"))

/-- Convert a `Character` back to its u8 code (`Character::to_u8`). -/
def Character.to_u8 : Character → Nat
  | .Sol => 0x00
  | .Ky => 0x01
  | .May => 0x02
  | .Axl => 0x03
  | .Chipp => 0x04
  | .Potemkin => 0x05
  | .Faust => 0x06
  | .Millia => 0x07
  | .Zato => 0x08
  | .Ramlethal => 0x09
  | .Leo => 0x0a
  | .Nagoriyuki => 0x0b
  | .Giovanna => 0x0c
  | .Anji => 0x0d
  | .Ino => 0x0e
  | .Goldlewis => 0x0f
  | .Jacko => 0x10
  | .HappyChaos => 0x11

/-- Convert the character enum to the code used by the profile API
(`Character::to_code`). -/
def Character.to_code : Character → String
  | .Sol => "SOL"
  | .Ky => "KYK"
  | .May => "MAY"
  | .Axl => "AXL"
  | .Leo => "LEO"
  | .Ino => "INO"
  | .Zato => "ZAT"
  | .Anji => "ANJ"
  | .Chipp => "CHP"
  | .Faust => "FAU"
  | .Potemkin => "POT"
  | .Millia => "MLL"
  | .Ramlethal => "RAM"
  | .Giovanna => "GIO"
  | .Nagoriyuki => "NAG"
  | .Goldlewis => "GLD"
  | .Jacko => "JKO"
  | .HappyChaos => "COS"

/-- Convert back to the character enum based on the profile API code
representation of it (`Character::from_code`). -/
def Character.from_code (code : String) : Except Error Character :=
  match code with
  | "SOL" => .ok .Sol
  | "KYK" => .ok .Ky
  | "MAY" => .ok .May
  | "AXL" => .ok .Axl
  | "LEO" => .ok .Leo
  | "INO" => .ok .Ino
  | "ZAT" => .ok .Zato
  | "ANJ" => .ok .Anji
  | "CHP" => .ok .Chipp
  | "FAU" => .ok .Faust
  | "POT" => .ok .Potemkin
  | "MLL" => .ok .Millia
  | "RAM" => .ok .Ramlethal
  | "GIO" => .ok .Giovanna
  | "NAG" => .ok .Nagoriyuki
  | "GLD" => .ok .Goldlewis
  | "JKO" => .ok .Jacko
  | "COS" => .ok .HappyChaos
  | _ => .error (.InvalidCharacterCode code)

/-- The fixed 18-entry code table of `Character::from_code`, in source
order. -/
def characterCodes : List String :=
  ["SOL", "KYK", "MAY", "AXL", "LEO", "INO", "ZAT", "ANJ", "CHP",
   "FAU", "POT", "MLL", "RAM", "GIO", "NAG", "GLD", "JKO", "COS"]

/-- Enum mapping for floors present in the game (`Floor` in `lib.rs`). -/
inductive Floor where
  | F1
  | F2
  | F3
  | F4
  | F5
  | F6
  | F7
  | F8
  | F9
  | F10
  | Celestial
deriving DecidableEq, Repr, Fintype

/-- Create a floor from a byte representation (`Floor::from_u8`). -/
def Floor.from_u8 (c : Nat) : Except Error Floor :=
  match c with
  | 0x00 => .ok .F1
  | 0x01 => .ok .F2
  | 0x02 => .ok .F3
  | 0x03 => .ok .F4
  | 0x04 => .ok .F5
  | 0x05 => .ok .F6
  | 0x06 => .ok .F7
  | 0x07 => .ok .F8
  | 0x08 => .ok .F9
  | 0x09 => .ok .F10
  | 0x63 => .ok .Celestial
  | _ => .error (.InvalidArguments (toLowercaseHex c ++ " is not a valid floor code"))

/-- String representation of a floor for url building (`Floor::to_hex`). -/
def Floor.to_hex : Floor → String
  | .F1 => "00"
  | .F2 => "01"
  | .F3 => "02"
  | .F4 => "03"
  | .F5 => "04"
  | .F6 => "05"
  | .F7 => "06"
  | .F8 => "07"
  | .F9 => "08"
  | .F10 => "0a"
  | .Celestial => "63"

/-- Player information associated with a match (`Player` in `lib.rs`). -/
structure Player where
  id : String
  name : String
  character : Character
deriving DecidableEq, Repr

/-- Data fed, in field order, to the hasher by the `#[derive(Hash)]`
implementation on `Player`: the derived Rust `Hash` hashes `id`, `name`
and `character` in sequence, so two players feed an identical stream to
any hasher exactly when this triple agrees. -/
def Player.hashFields (p : Player) : String × String × Character :=
  (p.id, p.name, p.character)

/-- Indicates which player won a match (`Winner` in `lib.rs`). -/
inductive Winner where
  | Player1
  | Player2
deriving DecidableEq, Repr

/-- A match received by the get_replay API (`Match` in `lib.rs`).  The
Rust field `winner` is embedded as `winnerFlag` because the accessor
method of the same name is a separate Lean declaration. -/
structure Match where
  floor : Floor
  timestamp : Int
  players : Player × Player
  winnerFlag : Winner
deriving DecidableEq, Repr

/-- Get the player information about the winner (`Match::winner`). -/
def Match.winner (m : Match) : Player :=
  match m.winnerFlag with
  | .Player1 => m.players.1
  | .Player2 => m.players.2

/-- Get the player information about the loser (`Match::loser`). -/
def Match.loser (m : Match) : Player :=
  match m.winnerFlag with
  | .Player1 => m.players.2
  | .Player2 => m.players.1

end GGST

namespace GGST

/-- C1: for every `Character` variant V, decoding the byte produced by
encoding V returns exactly V: `from_u8 (to_u8 V) = Ok V`. -/
theorem character_u8_roundtrip (c : Character) :
    Character.from_u8 (Character.to_u8 c) = .ok c := by
  cases c <;> rfl

/-- C2: for every `Character` variant V, decoding the 3-letter string code
produced by encoding V returns exactly V: `from_code (to_code V) = Ok V`. -/
theorem character_code_roundtrip (c : Character) :
    Character.from_code (Character.to_code c) = .ok c := by
  cases c <;> rfl

/-- C3: for every byte outside the assigned set `0x00..=0x11`,
`Character.from_u8` returns an `InvalidArguments` error whose message
carries the byte rendered as lowercase hex; it never panics (the embedding
is a total function into `Except`) and never returns a variant. -/
theorem character_from_u8_invalid (b : Nat) (hb : b < 256) (h : 0x11 < b) :
    Character.from_u8 b =
      .error (.InvalidArguments (toLowercaseHex b ++ " is not a valid character code")) := by
  obtain ⟨n, rfl⟩ := Nat.exists_eq_add_of_le' (Nat.succ_le_of_lt h)
  rfl

/-- Witness for C3 at the concrete byte `0x2f`. -/
theorem character_from_u8_invalid_witness :
    (0x2f : Nat) < 256 ∧ 0x11 < (0x2f : Nat) ∧
      Character.from_u8 0x2f =
        .error (.InvalidArguments (toLowercaseHex 0x2f ++ " is not a valid character code")) :=
  ⟨by decide, by decide, character_from_u8_invalid 0x2f (by decide) (by decide)⟩

/-- C4: for every string not exactly equal (case-sensitively) to one of the
18 entries of the fixed code table, `Character.from_code` returns an
`InvalidCharacterCode` error carrying the original string. -/
theorem character_from_code_invalid (s : String) (h : s ∉ characterCodes) :
    Character.from_code s = .error (.InvalidCharacterCode s) := by
  unfold Character.from_code
  split <;> simp_all [characterCodes]

/-- Witness for C4 at the concrete string `"XYZ"`. -/
theorem character_from_code_invalid_witness :
    "XYZ" ∉ characterCodes ∧
      Character.from_code "XYZ" = .error (.InvalidCharacterCode "XYZ") :=
  ⟨by decide, character_from_code_invalid "XYZ" (by decide)⟩

/-- C5: `Floor.to_hex` is a pure function of the enum tag (two calls on the
same value give identical output), with `to_hex F1 = "00"`,
`to_hex F10 = "0a"`, `to_hex Celestial = "63"`; on the decode side
`Floor.from_u8 0x63 = Ok Celestial` while `Floor.from_u8 0x0a` fails with
an error (byte `0x0a` has no decode mapping even though `"0a"` is F10's
`to_hex` output). -/
theorem floor_hex_and_decode :
    (∀ f : Floor, Floor.to_hex f = Floor.to_hex f)
    ∧ Floor.to_hex .F1 = "00"
    ∧ Floor.to_hex .F10 = "0a"
    ∧ Floor.to_hex .Celestial = "63"
    ∧ Floor.from_u8 0x63 = .ok .Celestial
    ∧ Floor.from_u8 0x0a =
        .error (.InvalidArguments (toLowercaseHex 0x0a ++ " is not a valid floor code")) :=
  ⟨fun _ => rfl, rfl, rfl, rfl, rfl, rfl⟩

/-- C6: for every `Match` built from an ordered pair of players (P1, P2),
if the outcome flag designates position 1 then `winner` returns P1 and
`loser` returns P2, and if it designates position 2 then `winner` returns
P2 and `loser` returns P1; both accessors are total functions with no
failure path. -/
theorem match_winner_loser (p1 p2 : Player) (fl : Floor) (ts : Int) :
    (Match.winner ⟨fl, ts, (p1, p2), .Player1⟩ = p1
      ∧ Match.loser ⟨fl, ts, (p1, p2), .Player1⟩ = p2)
    ∧ (Match.winner ⟨fl, ts, (p1, p2), .Player2⟩ = p2
      ∧ Match.loser ⟨fl, ts, (p1, p2), .Player2⟩ = p1) :=
  ⟨⟨rfl, rfl⟩, ⟨rfl, rfl⟩⟩

/-- C7: two `Player` values are equal iff their id, name and character are
all equal; equal players feed identical data to the derived hasher, and
changing any one of the three fields makes them unequal. -/
theorem player_structural_eq_hash (p q : Player) :
    (p = q ↔ p.id = q.id ∧ p.name = q.name ∧ p.character = q.character)
    ∧ (p = q → Player.hashFields p = Player.hashFields q)
    ∧ (p.id ≠ q.id → p ≠ q)
    ∧ (p.name ≠ q.name → p ≠ q)
    ∧ (p.character ≠ q.character → p ≠ q) := by
  refine ⟨⟨fun h => by subst h; exact ⟨rfl, rfl, rfl⟩, fun ⟨h1, h2, h3⟩ => ?_⟩,
    fun h => by rw [h],
    fun h hpq => h (congrArg Player.id hpq),
    fun h hpq => h (congrArg Player.name hpq),
    fun h hpq => h (congrArg Player.character hpq)⟩
  obtain ⟨pi, pn, pc⟩ := p
  obtain ⟨qi, qn, qc⟩ := q
  simp_all

/-- Witness for C7: concrete players differing only in id are unequal. -/
theorem player_structural_eq_hash_witness :
    Player.mk "210" "Ino" .Ino ≠ Player.mk "211" "Ino" .Ino :=
  (player_structural_eq_hash _ _).2.2.1 (by decide)

/-- C8: concrete decode values: byte `0x08` decodes to `Zato`, whose string
code is `"ZAT"` and display name is `"Zato=1"`; byte `0x11` decodes to
`HappyChaos`, string code `"COS"`; byte `0x12` fails with a decode
error. -/
theorem concrete_character_decodes :
    Character.from_u8 0x08 = .ok .Zato
    ∧ Character.to_code .Zato = "ZAT"
    ∧ Character.display .Zato = "Zato=1"
    ∧ Character.from_u8 0x11 = .ok .HappyChaos
    ∧ Character.to_code .HappyChaos = "COS"
    ∧ Character.from_u8 0x12 =
        .error (.InvalidArguments (toLowercaseHex 0x12 ++ " is not a valid character code")) :=
  ⟨rfl, rfl, rfl, rfl, rfl, rfl⟩

/-- C9: for every `Match`, `winner` and `loser` jointly return both stored
players with no repetition: the pair (winner, loser) is always either
(players.1, players.2) or (players.2, players.1). -/
theorem match_winner_loser_partition (m : Match) :
    (Match.winner m, Match.loser m) = (m.players.1, m.players.2)
    ∨ (Match.winner m, Match.loser m) = (m.players.2, m.players.1) := by
  obtain ⟨fl, ts, ps, w⟩ := m
  cases w
  · exact Or.inl rfl
  · exact Or.inr rfl

/-- C10: the decode-then-encode direction is the identity on valid inputs:
every byte in `0x00..=0x11` decodes via `from_u8` to a character whose
`to_u8` is that byte, and every string in the 18-entry code table decodes
via `from_code` to a character whose `to_code` is that string. -/
theorem valid_code_decode_encode_roundtrip :
    (∀ b : Nat, b ≤ 0x11 → ∃ c, Character.from_u8 b = .ok c ∧ Character.to_u8 c = b)
    ∧ (∀ s ∈ characterCodes, ∃ c, Character.from_code s = .ok c ∧ Character.to_code c = s) := by
  constructor
  · intro b hb
    interval_cases b <;> exact ⟨_, rfl, rfl⟩
  · intro s hs
    fin_cases hs <;> exact ⟨_, rfl, rfl⟩

/-- Witness for C10 at byte `0x05` and code `"ZAT"`. -/
theorem valid_code_decode_encode_roundtrip_witness :
    (∃ c, Character.from_u8 0x05 = .ok c ∧ Character.to_u8 c = 0x05)
    ∧ (∃ c, Character.from_code "ZAT" = .ok c ∧ Character.to_code c = "ZAT") :=
  ⟨valid_code_decode_encode_roundtrip.1 0x05 (by decide),
   valid_code_decode_encode_roundtrip.2 "ZAT" (by decide)⟩

end GGST
